import Mathlib

/-
Verification development for the QuLab instrument-driver core
(`qulab/_driver.py`): a shallow embedding of the quantity value model, the
driver dispatch, the error-queue drain, the resource resolver, the driver
cache, and (modelled from the spec, since `qulab/util.py` is not among the
sources) the IEEE-488.2 definite-length binary block codec.
-/

deriving instance DecidableEq for Except

/-- Python runtime values the driver core manipulates.  Python floats are
modelled as rationals; `vec` is a numeric array; `obj0` stands for the 0-d
object array `np.asarray(None)` that a vector query produces when the
transport returned `None`. -/
inductive PyVal where
  | none : PyVal
  | int : Int → PyVal
  | real : Rat → PyVal
  | str : String → PyVal
  | bool : Bool → PyVal
  | vec : List Rat → PyVal
  | obj0 : PyVal
deriving DecidableEq

/-- The Python exceptions the embedded code paths can raise. -/
inductive PyErr where
  | typeError
  | valueError
  | indexError
  | keyError
  | attributeError
deriving DecidableEq

/-- Leading and trailing whitespace removal, as Python `str.strip()`. -/
def pyStripWs (l : List Char) : List Char :=
  ((l.dropWhile Char.isWhitespace).reverse.dropWhile Char.isWhitespace).reverse

/-- A run of decimal digits as a number; `none` unless nonempty, all digits. -/
def digitsToNat (l : List Char) : Option Nat :=
  if l.isEmpty then none
  else if l.all Char.isDigit then
    some (l.foldl (fun a c => 10 * a + (c.toNat - 48)) 0)
  else none

/-- Python `int(s)` on a string: strip whitespace, optional sign, decimal
digits; `none` models the `ValueError` on anything else. -/
def pyIntOfChars (l : List Char) : Option Int :=
  match pyStripWs l with
  | '-' :: ds => (digitsToNat ds).map (fun n => -(n : Int))
  | '+' :: ds => (digitsToNat ds).map (fun n => (n : Int))
  | ds => (digitsToNat ds).map (fun n => (n : Int))

/-- Python `int(x)`: identity on ints, truncation toward zero on floats,
0/1 on bools, decimal parse on strings, `TypeError` on `None` and on the
other object kinds. -/
def pyInt : PyVal → Except PyErr PyVal
  | .int n => .ok (.int n)
  | .real x => .ok (.int (Int.tdiv x.num (x.den : Int)))
  | .bool b => .ok (.int (if b then 1 else 0))
  | .str s =>
      match pyIntOfChars s.toList with
      | some n => .ok (.int n)
      | Option.none => .error .valueError
  | _ => .error .typeError

/-- Python truthiness.  Only the `int` case is ever reached by the embedded
paths (`QBool.getValue` applies `bool` to `QInteger.getValue`'s result); the
other cases follow Python where it is defined. -/
def pyTruthy : PyVal → Bool
  | .none => false
  | .int n => n != 0
  | .real x => x != 0
  | .str s => s != ""
  | .bool b => b
  | .vec l => l != []
  | .obj0 => true

/-- Python `s.strip(chars)`: drop characters of the set from both ends. -/
def pyStrip (s : String) (chars : List Char) : String :=
  String.mk (((s.toList.dropWhile (chars.contains ·)).reverse.dropWhile
    (chars.contains ·)).reverse)

/-- Python `str.split(',')`: split at every comma. -/
def splitComma : List Char → List (List Char)
  | [] => [[]]
  | ',' :: rest => [] :: splitComma rest
  | c :: rest =>
      match splitComma rest with
      | p :: ps => (c :: p) :: ps
      | [] => [[c]]

/-- Python `str.split(',\x22')`: split at every occurrence of the two-char
separator comma-then-double-quote, scanning left to right. -/
def splitCQ : List Char → List (List Char)
  | [] => [[]]
  | ',' :: '"' :: rest => [] :: splitCQ rest
  | c :: rest =>
      match splitCQ rest with
      | p :: ps => (c :: p) :: ps
      | [] => [[c]]

/-- `dict(pairs)[k]`: the value of the last pair carrying key `k`. -/
def dictLookup (ps : List (String × String)) (k : String) : Option String :=
  match ps with
  | [] => none
  | (a, b) :: rest =>
      match dictLookup rest k with
      | some v => some v
      | none => if a = k then some b else none

/-- A command sent to the transport.  Python %-formatting of the template
with its keyword arguments is abstracted as the pair (template, substituted
value): no modelled behavior inspects the formatted text, only whether and
with which argument a command was sent. -/
structure SentCmd where
  tmpl : String
  arg : PyVal
deriving DecidableEq

/-- A canned pyvisa transport: the replies the device would give to the
query primitives. -/
structure Transport where
  strReply : String
  asciiReply : List Rat
  binaryReply : List Rat
deriving DecidableEq

/-- `BaseDriver.query`: returns `None` when `self.ins is None`, otherwise
the transport's reply. -/
def BaseDriver.queryIns : Option Transport → PyVal
  | none => .none
  | some t => .str t.strReply

/-- `BaseDriver.query_ascii_values`: `None` when `self.ins is None`,
otherwise the reply list. -/
def BaseDriver.queryAsciiValuesIns : Option Transport → Option (List Rat)
  | none => none
  | some t => some t.asciiReply

/-- `BaseDriver.query_binary_values`: `None` when `self.ins is None`,
otherwise the reply list. -/
def BaseDriver.queryBinaryValuesIns : Option Transport → Option (List Rat)
  | none => none
  | some t => some t.binaryReply

/-- `BaseDriver.write`: no-op when `self.ins is None`, else the message
goes out to the device. -/
def BaseDriver.writeIns : Option Transport → SentCmd → List SentCmd
  | none, _ => []
  | some _, c => [c]

/-- The quantity kinds (the flattened Python class hierarchy:
Quantity, QReal, QInteger, QString, QOption, QBool, QVector, QList). -/
inductive QKind where
  | base
  | real
  | integer
  | string
  | option
  | bool
  | vector
  | list
deriving DecidableEq

/-- A quantity: name, cached value, kind tag, unit, channel, get/set command
templates, and (for Option quantities) the ordered (label, device-code)
list.  The back-reference `self.driver` is passed to the operations as an
explicit `Option (Option Transport)` argument: `none` = no driver attached,
`some ins` = a driver whose transport handle is `ins`. -/
structure Quantity where
  name : String
  value : PyVal
  type : QKind
  unit : Option String
  ch : Option Int
  get_cmd : String
  set_cmd : String
  options : List (String × String)
deriving DecidableEq

/-- `Quantity.getValue` (base class, also QList): return the cache. -/
def Quantity.getValue (q : Quantity) : Except PyErr PyVal × Quantity :=
  (.ok q.value, q)

/-- `Quantity.setValue`: overwrite the cache unconditionally; then, when a
driver is attached and the set command is nonempty
(`self.driver is not None and self.set_cmd is not ''`), format and write
the command.  Always returns `ok` (template formatting is abstracted). -/
def Quantity.setValue (drv : Option (Option Transport)) (q : Quantity)
    (v : PyVal) : Except PyErr Unit × Quantity × List SentCmd :=
  let q1 := { q with value := v }
  match drv with
  | some ins =>
      if q1.set_cmd = "" then (.ok (), q1, [])
      else (.ok (), q1, BaseDriver.writeIns ins ⟨q1.set_cmd, v⟩)
  | none => (.ok (), q1, [])

/-- `QReal.getValue`: with an attached driver and nonempty get command,
query ascii values and cache the first element; `res[0]` raises `TypeError`
when the reply is `None` (transport absent) and `IndexError` when it is
empty.  Otherwise return the cache. -/
def QReal.getValue (drv : Option (Option Transport)) (q : Quantity) :
    Except PyErr PyVal × Quantity :=
  match drv with
  | some ins =>
      if q.get_cmd = "" then (.ok q.value, q)
      else
        match BaseDriver.queryAsciiValuesIns ins with
        | none => (.error .typeError, q)
        | some [] => (.error .indexError, q)
        | some (x :: _) => (.ok (.real x), { q with value := .real x })
  | none => (.ok q.value, q)

/-- `QInteger.getValue`: run `QReal.getValue` (which may refresh the
cache), then return `int(self.value)` without touching the cache. -/
def QInteger.getValue (drv : Option (Option Transport)) (q : Quantity) :
    Except PyErr PyVal × Quantity :=
  match QReal.getValue drv q with
  | (.error e, q1) => (.error e, q1)
  | (.ok _, q1) =>
      match pyInt q1.value with
      | .error e => (.error e, q1)
      | .ok v => (.ok v, q1)

/-- `QString.getValue`: with an attached driver and nonempty get command,
query and strip newline, quotes and blanks; `.strip` on a `None` reply
(transport absent) raises `AttributeError`.  Otherwise return the cache. -/
def QString.getValue (drv : Option (Option Transport)) (q : Quantity) :
    Except PyErr PyVal × Quantity :=
  match drv with
  | some ins =>
      if q.get_cmd = "" then (.ok q.value, q)
      else
        match BaseDriver.queryIns ins with
        | .str s =>
            let v := PyVal.str (pyStrip s ['\n', '"', '\'', ' '])
            (.ok v, { q with value := v })
        | _ => (.error .attributeError, q)
  | none => (.ok q.value, q)

/-- `QBool.getValue`: `bool(QInteger.getValue(...))`. -/
def QBool.getValue (drv : Option (Option Transport)) (q : Quantity) :
    Except PyErr PyVal × Quantity :=
  match QInteger.getValue drv q with
  | (.error e, q1) => (.error e, q1)
  | (.ok v, q1) => (.ok (.bool (pyTruthy v)), q1)

/-- `QVector.getValue`: with an attached driver and nonempty get command,
query binary or ascii values per the `binary` keyword and materialize with
`np.asarray` (which turns a `None` reply into a 0-d object array, without
raising).  Otherwise return the cache. -/
def QVector.getValue (drv : Option (Option Transport)) (binary : Bool)
    (q : Quantity) : Except PyErr PyVal × Quantity :=
  match drv with
  | some ins =>
      if q.get_cmd = "" then (.ok q.value, q)
      else
        match (if binary then BaseDriver.queryBinaryValuesIns ins
               else BaseDriver.queryAsciiValuesIns ins) with
        | none => (.ok .obj0, { q with value := .obj0 })
        | some xs => (.ok (.vec xs), { q with value := .vec xs })
  | none => (.ok q.value, q)

/-- `QOption.setValue`: overwrite the cache; with an attached driver and a
nonempty set command, look the value up among the option labels
(`dict(self.options)`).  An unregistered label returns without sending
anything; a registered one sends the command formatted with the device
code.  Non-string values are likewise not among the (string) labels. -/
def QOption.setValue (drv : Option (Option Transport)) (q : Quantity)
    (v : PyVal) : Except PyErr Unit × Quantity × List SentCmd :=
  let q1 := { q with value := v }
  match drv with
  | some ins =>
      if q1.set_cmd = "" then (.ok (), q1, [])
      else
        match v with
        | .str s =>
            match dictLookup q1.options s with
            | none => (.ok (), q1, [])
            | some code => (.ok (), q1, BaseDriver.writeIns ins ⟨q1.set_cmd, .str code⟩)
        | _ => (.ok (), q1, [])
  | none => (.ok (), q1, [])

/-- Python `==` between a stored value and an option label (a string). -/
def pyEqStr : PyVal → String → Bool
  | .str s, t => s == t
  | _, _ => false

/-- The `for i, pair in enumerate(self.options)` search of
`QOption.getIndex`: first index whose label compares equal to the value. -/
def optionIndexLoop (v : PyVal) : Nat → List (String × String) → Option Nat
  | _, [] => none
  | i, p :: rest => if pyEqStr v p.1 then some i else optionIndexLoop v (i + 1) rest

/-- `QOption.getIndex`: fetch the current value via `getValue`; `None`
yields `None`; otherwise the index of the first option pair whose label
equals the value, or `None` when none does. -/
def QOption.getIndex (drv : Option (Option Transport)) (q : Quantity) :
    Except PyErr PyVal × Quantity :=
  match QString.getValue drv q with
  | (.error e, q1) => (.error e, q1)
  | (.ok v, q1) =>
      match v with
      | .none => (.ok .none, q1)
      | v =>
          match optionIndexLoop v 0 q1.options with
          | some i => (.ok (.int i), q1)
          | none => (.ok .none, q1)

/-- `QOption.getCmdOption`: fetch the current value via `getValue`; `None`
yields `None`; otherwise `dict(self.options)[value]` — `KeyError` when the
value is not a registered label (`TypeError` when it is unhashable). -/
def QOption.getCmdOption (drv : Option (Option Transport)) (q : Quantity) :
    Except PyErr PyVal × Quantity :=
  match QString.getValue drv q with
  | (.error e, q1) => (.error e, q1)
  | (.ok v, q1) =>
      match v with
      | .none => (.ok .none, q1)
      | .str s =>
          match dictLookup q1.options s with
          | some code => (.ok (.str code), q1)
          | none => (.error .keyError, q1)
      | .vec _ => (.error .typeError, q1)
      | .obj0 => (.error .typeError, q1)
      | _ => (.error .keyError, q1)

/-- `getValue` dispatched on the quantity kind (the Python method-resolution
order, flattened; `binary` is QVector's keyword argument, absent/false for
the other kinds). -/
def Quantity.getValueK (drv : Option (Option Transport)) (binary : Bool)
    (q : Quantity) : Except PyErr PyVal × Quantity :=
  match q.type with
  | .base => Quantity.getValue q
  | .list => Quantity.getValue q
  | .real => QReal.getValue drv q
  | .integer => QInteger.getValue drv q
  | .string => QString.getValue drv q
  | .option => QString.getValue drv q
  | .bool => QBool.getValue drv q
  | .vector => QVector.getValue drv binary q

/-- `setValue` dispatched on the quantity kind: only QOption overrides the
base implementation. -/
def Quantity.setValueK (drv : Option (Option Transport)) (q : Quantity)
    (v : PyVal) : Except PyErr Unit × Quantity × List SentCmd :=
  match q.type with
  | .option => QOption.setValue drv q v
  | _ => Quantity.setValue drv q v

/-- `getIndex` dispatched on the quantity kind: only QOption defines it;
on every other kind Python raises `AttributeError`. -/
def Quantity.getIndexK (drv : Option (Option Transport)) (q : Quantity) :
    Except PyErr PyVal × Quantity :=
  match q.type with
  | .option => QOption.getIndex drv q
  | _ => (.error .attributeError, q)

/-- `getCmdOption` dispatched on the quantity kind: only QOption defines
it; on every other kind Python raises `AttributeError`. -/
def Quantity.getCmdOptionK (drv : Option (Option Transport)) (q : Quantity) :
    Except PyErr PyVal × Quantity :=
  match q.type with
  | .option => QOption.getCmdOption drv q
  | _ => (.error .attributeError, q)

/-- A driver: transport handle (may be absent) and the owned name→quantity
mapping, as an association list. -/
structure BDriver where
  ins : Option Transport
  quantities : List (String × Quantity)
deriving DecidableEq

/-- `name in self.quantities` / `self.quantities[name]`. -/
def lookupQuant (qs : List (String × Quantity)) (name : String) :
    Option Quantity :=
  (qs.find? (fun p => p.1 == name)).map (fun p => p.2)

/-- Store a quantity's mutated state back into the mapping. -/
def updateQuant (qs : List (String × Quantity)) (name : String)
    (q : Quantity) : List (String × Quantity) :=
  qs.map (fun p => if p.1 == name then (p.1, q) else p)

/-- `BaseDriver.getValue`: unknown name returns `None`; a known name goes
through `performGetValue` = the quantity's `getValue`, whose mutation of
the quantity persists in the driver. -/
def BDriver.getValue (d : BDriver) (binary : Bool) (name : String) :
    Except PyErr PyVal × BDriver :=
  match lookupQuant d.quantities name with
  | none => (.ok .none, d)
  | some q =>
      let r := Quantity.getValueK (some d.ins) binary q
      (r.1, { d with quantities := updateQuant d.quantities name r.2 })

/-- `BaseDriver.getIndex`: unknown name falls through, returning `None`. -/
def BDriver.getIndex (d : BDriver) (name : String) :
    Except PyErr PyVal × BDriver :=
  match lookupQuant d.quantities name with
  | none => (.ok .none, d)
  | some q =>
      let r := Quantity.getIndexK (some d.ins) q
      (r.1, { d with quantities := updateQuant d.quantities name r.2 })

/-- `BaseDriver.getCmdOption`: unknown name falls through, returning
`None`. -/
def BDriver.getCmdOption (d : BDriver) (name : String) :
    Except PyErr PyVal × BDriver :=
  match lookupQuant d.quantities name with
  | none => (.ok .none, d)
  | some q =>
      let r := Quantity.getCmdOptionK (some d.ins) q
      (r.1, { d with quantities := updateQuant d.quantities name r.2 })

/-- `BaseDriver.setValue`: unknown name is a no-op (the method just returns
`self`); a known name goes through `performSetValue` = the quantity's
`setValue`. -/
def BDriver.setValue (d : BDriver) (name : String) (v : PyVal) :
    Except PyErr Unit × BDriver × List SentCmd :=
  match lookupQuant d.quantities name with
  | none => (.ok (), d, [])
  | some q =>
      let r := Quantity.setValueK (some d.ins) q v
      (r.1, { d with quantities := updateQuant d.quantities name r.2.1 }, r.2.2)

/-- One `SYST:ERR?` reply, parsed as the code does:
`_ = s[:-1].split(',\x22')`, `code = int(_[0])`, `msg = _[1]`. -/
def parseErrorReply (s : String) : Except PyErr (Int × String) :=
  let parts := splitCQ s.toList.dropLast
  match parts with
  | [] => .error .indexError
  | p0 :: rest =>
      match pyIntOfChars p0 with
      | none => .error .valueError
      | some code =>
          match rest with
          | [] => .error .indexError
          | p1 :: _ => .ok (code, String.mk p1)

/-- Outcome of `BaseDriver.errors` against a canned reply sequence:
normal termination with the accumulated list and the number of queries
issued, a raised exception, or exhaustion of the canned replies (the code
would keep querying). -/
inductive ErrorsOutcome where
  | done (errs : List (Int × String)) (queries : Nat)
  | raised (e : PyErr) (queries : Nat)
  | hung
deriving DecidableEq

/-- The `while True` loop of `BaseDriver.errors`: query, parse, stop on a
zero code, otherwise append and continue. -/
def errorsLoop (replies : List String) (acc : List (Int × String))
    (queries : Nat) : ErrorsOutcome :=
  match replies with
  | [] => .hung
  | s :: rest =>
      match parseErrorReply s with
      | .error e => .raised e (queries + 1)
      | .ok (code, msg) =>
          if code = 0 then .done acc (queries + 1)
          else errorsLoop rest (acc ++ [(code, msg)]) (queries + 1)

/-- `BaseDriver.errors`: an empty `error_command` returns the empty list at
once, issuing no query; otherwise drain the canned replies (the successive
results of `self.ins.query(self.error_command)`). -/
def BaseDriver.errors (error_command : String) (replies : List String) :
    ErrorsOutcome :=
  if error_command = "" then .done [] 0
  else errorsLoop replies [] 0

/-- The reply text a device produces for error-queue entry `(code, msg)`:
`code,\x22msg\x22` (the closing quote is what the `[:-1]` slice removes). -/
def renderErrorReply (e : Int × String) : String :=
  toString e.1 ++ ",\"" ++ e.2 ++ "\""

/-- A pyvisa session handle as `BaseDriver.close` sees it: it can be open
or already released by `.close()`. -/
structure VisaHandle where
  closed : Bool
deriving DecidableEq

/-- The transport-facing state of a driver: the `self.ins` attribute. -/
structure ConnDriver where
  ins : Option VisaHandle
deriving DecidableEq

/-- `BaseDriver.close`: run the `performClose` hook (a no-op in the base
class), then `self.ins.close()` if a handle is present.  The `ins`
attribute is NOT cleared: the released handle stays referenced. -/
def ConnDriver.close (d : ConnDriver) : ConnDriver :=
  { d with ins := d.ins.map (fun h => { h with closed := true }) }

/-- What an I/O primitive does with the transport: the guard
`if self.ins is None: return None` either skips the call, or the method is
invoked on the stored handle — whether or not that handle was already
released. -/
inductive IOCall where
  | skipped
  | handleUsed (onClosedHandle : Bool)
deriving DecidableEq

/-- `BaseDriver.query`'s use of the transport. -/
def ConnDriver.query (d : ConnDriver) : IOCall :=
  match d.ins with
  | none => .skipped
  | some h => .handleUsed h.closed

/-- `BaseDriver.write`'s use of the transport (the ascii/binary variants
have the identical `self.ins is None` guard). -/
def ConnDriver.write (d : ConnDriver) : IOCall :=
  match d.ins with
  | none => .skipped
  | some h => .handleUsed h.closed

/-- `p` a prefix of `l`: the rest after it, else `none`. -/
def dropPrefixL (p l : List Char) : Option (List Char) :=
  match p, l with
  | [], l => some l
  | _ :: _, [] => none
  | a :: ps, b :: ls => if a = b then dropPrefixL ps ls else none

/-- The model alternation `(ATS9360|ATS9850|ATS9870)` of `ats_addr`. -/
def atsModelAlt (l : List Char) : Option (String × List Char) :=
  match dropPrefixL "ATS9360".toList l with
  | some r => some ("ATS9360", r)
  | none =>
      match dropPrefixL "ATS9850".toList l with
      | some r => some ("ATS9850", r)
      | none =>
          match dropPrefixL "ATS9870".toList l with
          | some r => some ("ATS9870", r)
          | none => none

/-- The trailing `(|::INSTR)$` of `ats_addr` (Python's `$` also matches
just before one final newline). -/
def atsTail (r : List Char) : Bool :=
  r == [] || r == ['\n'] ||
    (match dropPrefixL "::INSTR".toList r with
     | some r2 => r2 == [] || r2 == ['\n']
     | none => false)

/-- The anchored regular expression `ats_addr` =
`(ATS9360|ATS9850|ATS9870)::SYSTEM([0-9]+)::([0-9]+)(|::INSTR)`
as an explicit matcher, returning the captured model, system and board
numbers. -/
def ats_match (addr : String) : Option (String × Nat × Nat) :=
  match atsModelAlt addr.toList with
  | none => none
  | some (model, r1) =>
      match dropPrefixL "::SYSTEM".toList r1 with
      | none => none
      | some r2 =>
          let ds := r2.takeWhile Char.isDigit
          let r3 := r2.drop ds.length
          if ds.isEmpty then none
          else
            match dropPrefixL "::".toList r3 with
            | none => none
            | some r4 =>
                let bs := r4.takeWhile Char.isDigit
                let r5 := r4.drop bs.length
                if bs.isEmpty then none
                else if atsTail r5 then
                  match digitsToNat ds, digitsToNat bs with
                  | some si, some bi => some (model, si, bi)
                  | _, _ => none
                else none

/-- A resolved resource descriptor: the ATS digitizer-board dictionary
(`type='ATS', ins=None, company='AlazarTech', model, systemID, boardID,
addr` — no connection is opened) or the generic `type='Visa'` one. -/
inductive ResourceInfo where
  | ats (company model : String) (systemID boardID : Nat) (addr : String)
  | visa (addr : String)
deriving DecidableEq

/-- `_parse_ats_resource_name`: build the digitizer descriptor from the
regex captures. -/
def _parse_ats_resource_name (model : String) (systemID boardID : Nat)
    (addr : String) : ResourceInfo :=
  .ats "AlazarTech" model systemID boardID addr

/-- `_parse_resource_name`: try the `ats_addr` pattern; anything that does
not match is a generic Visa resource. -/
def _parse_resource_name (addr : String) : ResourceInfo :=
  match ats_match addr with
  | some (m, si, bi) => _parse_ats_resource_name m si bi addr
  | none => .visa addr

/-- `*IDN?` reply handling in `_open_visa_resource`: split on `','` and take
fields 0, 1 and 3, each `.strip()`ed.  A reply with fewer than four fields
hits an out-of-range index and raises `IndexError`; there is no explicit
length check and no `ProtocolError` anywhere in the module. -/
def _open_visa_resource (idnReply : String) :
    Except PyErr (String × String × String) :=
  let IDN := splitComma idnReply.toList
  match IDN[0]?, IDN[1]?, IDN[3]? with
  | some c, some m, some v =>
      .ok (String.mk (pyStripWs c), String.mk (pyStripWs m),
        String.mk (pyStripWs v))
  | _, _, _ => .error .indexError

/-- Identification queries issued on `DriverManager._open_resource`'s
resolution path: the ATS branch opens nothing and queries nothing; the
Visa branch opens the resource and issues exactly the one `*IDN?` query. -/
def openResourceQueries (addr : String) : Nat :=
  match _parse_resource_name addr with
  | .ats _ _ _ _ _ => 0
  | .visa _ => 1

/-- `DriverManager` state: the `__instr` cache (logical name → driver
object, drivers represented by identity tokens) and how many times
`_open_resource` has run. -/
structure DMState where
  instr : List (String × Nat)
  openCount : Nat
deriving DecidableEq

/-- `DriverManager.open` for an already-resolved instrument record: when
the logical name is not a key of the cache, run `_open_resource` (a fresh
driver object, here a fresh identity token) and store it; then return the
cache entry for the name. -/
def DriverManager.openByName (s : DMState) (name : String) : Nat × DMState :=
  match (s.instr.find? (fun p => p.1 == name)).map (fun p => p.2) with
  | some d => (d, s)
  | none =>
      (s.openCount,
        { instr := s.instr ++ [(name, s.openCount)],
          openCount := s.openCount + 1 })

/-- Modelled from the spec: the scalar datatypes supported by the binary
block transfer (struct codes b/h/i/q/f/d), identified by byte width
(`qulab/util.py`, which holds `IEEE_488_2_BinBlock`, is not among the
sources). -/
inductive BinDatatype where
  | int8
  | int16
  | int32
  | int64
  | float32
  | float64
deriving DecidableEq

/-- Byte width of a scalar datatype. -/
def BinDatatype.width : BinDatatype → Nat
  | .int8 => 1
  | .int16 => 2
  | .int32 => 4
  | .int64 => 8
  | .float32 => 4
  | .float64 => 8

/-- Little-endian packing of a scalar into `w` bytes. -/
def packScalarLE : Nat → Nat → List Nat
  | 0, _ => []
  | w + 1, x => x % 256 :: packScalarLE w (x / 256)

/-- Packing of one scalar per byte order. -/
def packScalar (w : Nat) (big : Bool) (x : Nat) : List Nat :=
  if big then (packScalarLE w x).reverse else packScalarLE w x

/-- Little-endian unpacking of a byte run. -/
def unpackScalarLE : List Nat → Nat
  | [] => 0
  | b :: bs => b + 256 * unpackScalarLE bs

/-- Unpacking of one scalar per byte order. -/
def unpackScalar (w : Nat) (big : Bool) (bs : List Nat) : Nat :=
  if big then unpackScalarLE bs.reverse else unpackScalarLE bs

/-- The packed payload of a whole array. -/
def packAll (w : Nat) (big : Bool) : List Nat → List Nat
  | [] => []
  | x :: xs => packScalar w big x ++ packAll w big xs

/-- The decimal rendering of a number as ASCII digit bytes. -/
def natDecBytes (n : Nat) : List Nat :=
  if n = 0 then [48] else ((Nat.digits 10 n).map (· + 48)).reverse

/-- Read a run of ASCII digit bytes back as a number. -/
def parseDecBytes (bs : List Nat) : Option Nat :=
  if bs.all (fun b => Nat.ble 48 b && Nat.ble b 57) then
    some (Nat.ofDigits 10 ((bs.map (· - 48)).reverse))
  else none

/-- Modelled from the spec: `IEEE_488_2_BinBlock` (in the missing
`qulab/util.py`) per spec section 4.2 — pack the array for the declared
scalar width and byte order, then prefix the header hash, a single decimal
digit `d` giving the digit count of the payload byte length `n`, and `n`
itself in decimal digits.  Byte streams are lists of byte values (35 is
the hash character).  Returns `none` when the payload length needs more
than 9 digits and so does not fit the one-digit `d`. -/
def IEEE_488_2_BinBlock (w : Nat) (big : Bool) (A : List Nat) :
    Option (List Nat) :=
  let payload := packAll w big A
  let lenBytes := natDecBytes payload.length
  if lenBytes.length ≤ 9 then
    some (35 :: (lenBytes.length + 48) :: (lenBytes ++ payload))
  else none

/-- Unpack `k` scalars of width `w` from a byte run, rejecting leftovers. -/
def unpackCount (w : Nat) (big : Bool) : Nat → List Nat → Option (List Nat)
  | 0, [] => some []
  | 0, _ :: _ => none
  | k + 1, bs =>
      if bs.length < w then none
      else
        match unpackCount w big k (bs.drop w) with
        | some vs => some (unpackScalar w big (bs.take w) :: vs)
        | none => none

/-- Modelled from the spec: the definite-length block reader (pyvisa's,
also outside the sources) per spec section 4.2 — read the hash, read one
digit `d`, read the next `d` digits as `n`, consume exactly `n` payload
bytes and unpack them for the declared width and byte order.  Nothing
after the `n` consumed bytes is examined: header parsing depends only on
the length prefix, never on a terminator scan inside the payload. -/
def decodeBlock (w : Nat) (big : Bool) (stream : List Nat) :
    Option (List Nat) :=
  match stream with
  | h :: dByte :: rest =>
      if h = 35 then
        let d := dByte - 48
        if rest.length < d then none
        else
          match parseDecBytes (rest.take d) with
          | none => none
          | some n =>
              let after := rest.drop d
              if after.length < n then none
              else if w = 0 then none
              else if n % w = 0 then unpackCount w big (n / w) (after.take n)
              else none
      else none
  | _ => none

/-- The return coercion each quantity kind applies on a cache-only
`getValue`: Integer returns `int(value)`, Bool returns `bool(int(value))`,
every other kind returns the cache as is. -/
def kindReturnCoerce (k : QKind) (v : PyVal) : Except PyErr PyVal :=
  match k with
  | .integer => pyInt v
  | .bool =>
      match pyInt v with
      | .ok v1 => .ok (.bool (pyTruthy v1))
      | .error e => .error e
  | _ => .ok v

theorem Quantity.setValueK_state (drv : Option (Option Transport))
    (q : Quantity) (x : PyVal) :
    (Quantity.setValueK drv q x).2.1 = { q with value := x } := by
  unfold Quantity.setValueK QOption.setValue Quantity.setValue
  cases q.type <;> rcases drv with _ | ins <;> (try rfl) <;> simp <;>
    (try rfl) <;> split <;> (try rfl) <;> split <;> (try rfl) <;> split <;> rfl

theorem getValueK_cacheOnly (drv : Option (Option Transport)) (binary : Bool)
    (q : Quantity) (h : drv = none ∨ q.get_cmd = "") :
    Quantity.getValueK drv binary q = (kindReturnCoerce q.type q.value, q) := by
  have hcases : ∀ hq : drv = none ∨ q.get_cmd = "",
      QReal.getValue drv q = (.ok q.value, q) ∧
      QString.getValue drv q = (.ok q.value, q) ∧
      QVector.getValue drv binary q = (.ok q.value, q) := by
    intro hq
    rcases hq with hq | hq
    · subst hq
      exact ⟨rfl, rfl, rfl⟩
    · rcases drv with _ | ins
      · exact ⟨rfl, rfl, rfl⟩
      · refine ⟨?_, ?_, ?_⟩ <;>
          simp [QReal.getValue, QString.getValue, QVector.getValue, hq]
  obtain ⟨hr, hs, hv⟩ := hcases h
  cases hty : q.type <;>
    simp [Quantity.getValueK, Quantity.getValue, QInteger.getValue,
      QBool.getValue, kindReturnCoerce, hty, hr, hs, hv]
  · cases hpi : pyInt q.value <;> simp [hpi]
  · cases hpi : pyInt q.value <;> simp [hpi]

/-- C2 (counterexample): the claim fails on the code as stated.  An Integer
quantity with no command templates and no attached driver: setValue with
the string "3" followed by getValue returns the integer 3, not the cached
"3" — QInteger.getValue returns `int(self.value)`.  And a Real quantity
with a get command whose attached driver has no connected transport:
getValue raises TypeError (indexing the `None` reply) instead of returning
the cache. -/
theorem C2_counterexample :
    ((Quantity.getValueK none false
        (Quantity.setValueK none
          { name := "n", value := .none, type := .integer, unit := none,
            ch := none, get_cmd := "", set_cmd := "", options := [] }
          (.str "3")).2.1).1 ≠ .ok (.str "3"))
    ∧ ((Quantity.getValueK (some none) false
        { name := "f", value := .int 7, type := .real, unit := none,
          ch := none, get_cmd := "FREQ?", set_cmd := "", options := [] }).1
        ≠ .ok (.int 7)) :=
  ⟨by decide, by decide⟩

/-- C2 (amended): for every quantity kind, when no driver is attached or
the get-command template is empty, getValue leaves the quantity unchanged
and returns the cached value through the kind's return coercion — int()
for Integer, bool(int()) for Bool, identity for all other kinds; in
particular setValue(x) followed by getValue() returns the coercion of x,
which is x itself for the non-coercing kinds. -/
theorem C2_cached_getValue (drv : Option (Option Transport)) (binary : Bool)
    (q : Quantity) (x : PyVal) (h : drv = none ∨ q.get_cmd = "") :
    Quantity.getValueK drv binary q = (kindReturnCoerce q.type q.value, q)
    ∧ Quantity.getValueK drv binary (Quantity.setValueK drv q x).2.1
        = (kindReturnCoerce q.type x, (Quantity.setValueK drv q x).2.1) := by
  constructor
  · exact getValueK_cacheOnly drv binary q h
  · rw [Quantity.setValueK_state]
    exact getValueK_cacheOnly drv binary _
      (by rcases h with h | h; exacts [Or.inl h, Or.inr h])

/-- C2 witness: the amended theorem at a concrete String quantity with no
templates and no attached driver. -/
theorem C2_cached_getValue_witness :
    Quantity.getValueK none false
        { name := "s", value := .str "a", type := .string, unit := none,
          ch := none, get_cmd := "", set_cmd := "", options := [] }
      = (kindReturnCoerce .string (.str "a"),
        { name := "s", value := .str "a", type := .string, unit := none,
          ch := none, get_cmd := "", set_cmd := "", options := [] })
    ∧ Quantity.getValueK none false
        (Quantity.setValueK none
          { name := "s", value := .str "a", type := .string, unit := none,
            ch := none, get_cmd := "", set_cmd := "", options := [] }
          (.str "b")).2.1
      = (kindReturnCoerce .string (.str "b"),
        (Quantity.setValueK none
          { name := "s", value := .str "a", type := .string, unit := none,
            ch := none, get_cmd := "", set_cmd := "", options := [] }
          (.str "b")).2.1) :=
  C2_cached_getValue none false _ (.str "b") (Or.inl rfl)

/-- C3 (code bug): `_open_visa_resource` populates company, model and
version from fields 0, 1 and 3 of the comma-split identification reply,
but a reply with fewer than four fields hits an out-of-range index and
raises IndexError — the module defines no ProtocolError and performs no
length check, while the spec mandates the explicit check. -/
theorem C3_idn_short_reply_faults :
    _open_visa_resource "Tektronix,TDS 2012B,0" = .error .indexError
    ∧ _open_visa_resource " Tektronix , TDS 2012B , 0 , FV:v22.01 "
      = .ok ("Tektronix", "TDS 2012B", "FV:v22.01") :=
  ⟨rfl, rfl⟩

/-- C4 (code bug): `close()` releases the pyvisa session but leaves
`self.ins` set, so a later `query()` or `write()` passes the
ins-is-None guard and invokes the method on the released handle — the
released transport handle IS reused after close, contrary to the claim. -/
theorem C4_close_reuses_handle :
    (ConnDriver.close { ins := some { closed := false } }).ins
      = some { closed := true }
    ∧ ConnDriver.query (ConnDriver.close { ins := some { closed := false } })
      = .handleUsed true
    ∧ ConnDriver.write (ConnDriver.close { ins := some { closed := false } })
      = .handleUsed true :=
  ⟨rfl, rfl, rfl⟩

/-- C5: for an Option quantity with a connected transport and a nonempty
set command, setValue with a label not registered in the option list sends
no command to the device, yet the cached value is still overwritten with
the unregistered value. -/
theorem C5_unregistered_label (t : Transport) (q : Quantity) (s : String)
    (hk : q.type = .option) (hcmd : q.set_cmd ≠ "")
    (hs : dictLookup q.options s = none) :
    Quantity.setValueK (some (some t)) q (.str s)
      = (.ok (), { q with value := .str s }, []) := by
  obtain ⟨n, val, ty, u, c, gc, sc, opts⟩ := q
  dsimp only at hk hcmd hs ⊢
  subst hk
  simp [Quantity.setValueK, QOption.setValue, hcmd, hs]

/-- C5 witness: a two-option quantity, connected transport, nonempty set
command, and the unregistered label "C". -/
theorem C5_unregistered_label_witness :
    Quantity.setValueK
        (some (some { strReply := "", asciiReply := [], binaryReply := [] }))
        { name := "o", value := .none, type := .option, unit := none,
          ch := none, get_cmd := "", set_cmd := "MODE %(option)s",
          options := [("A", "1"), ("B", "2")] }
        (.str "C")
      = (.ok (),
        { name := "o", value := .str "C", type := .option, unit := none,
          ch := none, get_cmd := "", set_cmd := "MODE %(option)s",
          options := [("A", "1"), ("B", "2")] }, []) :=
  C5_unregistered_label _ _ "C" rfl (by decide) rfl

theorem errorsLoop_concat (z : String) (m0 : String)
    (hz : parseErrorReply z = .ok (0, m0)) :
    ∀ (es : List (Int × String)) (acc : List (Int × String)) (n : Nat),
      (∀ e ∈ es, e.1 ≠ 0 ∧ parseErrorReply (renderErrorReply e) = .ok e) →
      errorsLoop (es.map renderErrorReply ++ [z]) acc n
        = .done (acc ++ es) (n + es.length + 1) := by
  intro es
  induction es with
  | nil =>
      intro acc n _
      simp [errorsLoop, hz]
  | cons e rest ih =>
      intro acc n h
      obtain ⟨c, m⟩ := e
      obtain ⟨hne, hp⟩ := h (c, m) (by simp)
      rw [List.map_cons, List.cons_append, errorsLoop, hp]
      simp only [dite_eq_ite]
      rw [if_neg hne]
      rw [ih (acc ++ [(c, m)]) (n + 1)
        (fun e he => h e (List.mem_cons_of_mem _ he))]
      have h1 : acc ++ [(c, m)] ++ rest = acc ++ (c, m) :: rest := by simp
      have h2 : n + 1 + rest.length + 1 = n + ((c, m) :: rest).length + 1 := by
        simp
        omega
      rw [h1, h2]

/-- C6: errors() repeatedly issues the error query, parsing each reply as
code,"message": for any sequence of non-zero entries followed by a
zero-code entry it returns exactly the non-zero entries in receipt order,
excluding the terminating zero entry (issuing one query per reply); a
disabled (empty) error-query command returns the empty list immediately,
issuing zero queries. -/
theorem C6_errors_drain (cmd : String) (es : List (Int × String))
    (z m0 : String) (replies : List String)
    (hcmd : cmd ≠ "") (hz : parseErrorReply z = .ok (0, m0))
    (hes : ∀ e ∈ es, e.1 ≠ 0 ∧ parseErrorReply (renderErrorReply e) = .ok e) :
    BaseDriver.errors cmd (es.map renderErrorReply ++ [z])
      = .done es (es.length + 1)
    ∧ BaseDriver.errors "" replies = .done [] 0 := by
  constructor
  · rw [BaseDriver.errors, if_neg hcmd,
      errorsLoop_concat z m0 hz es [] 0 hes]
    simp
  · rfl

/-- C6 witness: three non-zero canned entries then the zero terminator;
and a disabled command with pending noise. -/
theorem C6_errors_drain_witness :
    BaseDriver.errors "SYST:ERR?"
        (([(-113, "Undefined header"), (-410, "Query INTERRUPTED"),
            (110, "Command header error")] : List (Int × String)).map
            renderErrorReply
          ++ ["0,\"No error\""])
      = .done [(-113, "Undefined header"), (-410, "Query INTERRUPTED"),
          (110, "Command header error")] 4
    ∧ BaseDriver.errors "" ["-113,\"Undefined header\""] = .done [] 0 :=
  C6_errors_drain "SYST:ERR?" _ "0,\"No error\"" "No error" _ (by decide) rfl
    (by
      intro e he
      fin_cases he <;> exact ⟨by decide, rfl⟩)

theorem find?_append_of_none {α : Type} (p : α → Bool) (l1 l2 : List α)
    (h : l1.find? p = none) : (l1 ++ l2).find? p = l2.find? p := by
  induction l1 with
  | nil => rfl
  | cons a l ih =>
      cases hpa : p a with
      | true => simp [List.find?, hpa] at h
      | false =>
          simp only [List.cons_append, List.find?, hpa] at h ⊢
          exact ih h

theorem openByName_cached (s : DMState) (name : String) (d : Nat)
    (h : (s.instr.find? (fun p => p.1 == name)).map (fun p => p.2) = some d) :
    DriverManager.openByName s name = (d, s) := by
  unfold DriverManager.openByName
  rw [h]

/-- C7: DriverManager.open called twice with the same (previously unseen)
logical name: the second call returns the identical cached driver object
and leaves the cache untouched, with the resource-resolution and
driver-construction path run exactly once, on the first call. -/
theorem C7_open_twice_cached (s : DMState) (name : String)
    (h : s.instr.find? (fun p => p.1 == name) = none) :
    (DriverManager.openByName (DriverManager.openByName s name).2 name).1
        = (DriverManager.openByName s name).1
    ∧ (DriverManager.openByName (DriverManager.openByName s name).2 name).2
        = (DriverManager.openByName s name).2
    ∧ (DriverManager.openByName s name).2.openCount = s.openCount + 1
    ∧ (DriverManager.openByName
          (DriverManager.openByName s name).2 name).2.openCount
        = s.openCount + 1 := by
  have e1 : DriverManager.openByName s name
      = (s.openCount,
        { instr := s.instr ++ [(name, s.openCount)],
          openCount := s.openCount + 1 }) := by
    unfold DriverManager.openByName
    rw [h]
    rfl
  have h2 :
      (({ instr := s.instr ++ [(name, s.openCount)],
          openCount := s.openCount + 1 } : DMState).instr.find?
            (fun p => p.1 == name)).map (fun p => p.2)
        = some s.openCount := by
    show ((s.instr ++ [(name, s.openCount)]).find?
        (fun p => p.1 == name)).map (fun p => p.2) = some s.openCount
    rw [find?_append_of_none _ _ _ h]
    simp [List.find?]
  have e2 := openByName_cached _ name s.openCount h2
  rw [e1, e2]
  exact ⟨rfl, rfl, rfl, rfl⟩

/-- C7 witness: an empty cache opening "scope1" twice. -/
theorem C7_open_twice_cached_witness :
    (DriverManager.openByName
        (DriverManager.openByName ⟨[], 0⟩ "scope1").2 "scope1").1
      = (DriverManager.openByName ⟨[], 0⟩ "scope1").1
    ∧ (DriverManager.openByName
        (DriverManager.openByName ⟨[], 0⟩ "scope1").2 "scope1").2
      = (DriverManager.openByName ⟨[], 0⟩ "scope1").2
    ∧ (DriverManager.openByName ⟨[], 0⟩ "scope1").2.openCount = 0 + 1
    ∧ (DriverManager.openByName
        (DriverManager.openByName ⟨[], 0⟩ "scope1").2 "scope1").2.openCount
      = 0 + 1 :=
  C7_open_twice_cached ⟨[], 0⟩ "scope1" rfl

/-- C8: the address "ATS9360::SYSTEM1::2" resolves to the digitizer-board
descriptor with model "ATS9360", systemID 1 and boardID 2, with no
connection opened and zero identification queries issued on the
`_open_resource` path; every address the digitizer pattern rejects is
classified as a generic Visa bus resource. -/
theorem C8_resolver (addr : String) (h : ats_match addr = none) :
    _parse_resource_name addr = .visa addr
    ∧ _parse_resource_name "ATS9360::SYSTEM1::2"
        = .ats "AlazarTech" "ATS9360" 1 2 "ATS9360::SYSTEM1::2"
    ∧ openResourceQueries "ATS9360::SYSTEM1::2" = 0 := by
  refine ⟨?_, by decide, by decide⟩
  unfold _parse_resource_name
  rw [h]

/-- C8 witness: a generic GPIB address and the concrete digitizer
address. -/
theorem C8_resolver_witness :
    _parse_resource_name "GPIB0::10::INSTR" = .visa "GPIB0::10::INSTR"
    ∧ _parse_resource_name "ATS9360::SYSTEM1::2"
        = .ats "AlazarTech" "ATS9360" 1 2 "ATS9360::SYSTEM1::2"
    ∧ openResourceQueries "ATS9360::SYSTEM1::2" = 0 :=
  C8_resolver "GPIB0::10::INSTR" (by decide)

/-- C9: for every name absent from the driver's quantity mapping, getValue,
getIndex and getCmdOption return the absent outcome None and setValue is a
no-op: no exception is raised, the driver state is unchanged, and nothing
is sent to the device. -/
theorem C9_unknown_name (d : BDriver) (name : String) (v : PyVal) (b : Bool)
    (h : lookupQuant d.quantities name = none) :
    BDriver.getValue d b name = (.ok .none, d)
    ∧ BDriver.getIndex d name = (.ok .none, d)
    ∧ BDriver.getCmdOption d name = (.ok .none, d)
    ∧ BDriver.setValue d name v = (.ok (), d, []) := by
  refine ⟨?_, ?_, ?_, ?_⟩ <;>
    simp [BDriver.getValue, BDriver.getIndex, BDriver.getCmdOption,
      BDriver.setValue, h]

/-- C9 witness: a driver owning one quantity, probed with a name it does
not own. -/
theorem C9_unknown_name_witness :
    BDriver.getValue
        { ins := none,
          quantities := [("Frequency",
            { name := "Frequency", value := .none, type := .real,
              unit := some "Hz", ch := none, get_cmd := "FREQ?",
              set_cmd := "FREQ %(value)e%(unit)s", options := [] })] }
        false "Power"
      = (.ok .none,
        { ins := none,
          quantities := [("Frequency",
            { name := "Frequency", value := .none, type := .real,
              unit := some "Hz", ch := none, get_cmd := "FREQ?",
              set_cmd := "FREQ %(value)e%(unit)s", options := [] })] })
    ∧ BDriver.getIndex
        { ins := none,
          quantities := [("Frequency",
            { name := "Frequency", value := .none, type := .real,
              unit := some "Hz", ch := none, get_cmd := "FREQ?",
              set_cmd := "FREQ %(value)e%(unit)s", options := [] })] }
        "Power"
      = (.ok .none,
        { ins := none,
          quantities := [("Frequency",
            { name := "Frequency", value := .none, type := .real,
              unit := some "Hz", ch := none, get_cmd := "FREQ?",
              set_cmd := "FREQ %(value)e%(unit)s", options := [] })] })
    ∧ BDriver.getCmdOption
        { ins := none,
          quantities := [("Frequency",
            { name := "Frequency", value := .none, type := .real,
              unit := some "Hz", ch := none, get_cmd := "FREQ?",
              set_cmd := "FREQ %(value)e%(unit)s", options := [] })] }
        "Power"
      = (.ok .none,
        { ins := none,
          quantities := [("Frequency",
            { name := "Frequency", value := .none, type := .real,
              unit := some "Hz", ch := none, get_cmd := "FREQ?",
              set_cmd := "FREQ %(value)e%(unit)s", options := [] })] })
    ∧ BDriver.setValue
        { ins := none,
          quantities := [("Frequency",
            { name := "Frequency", value := .none, type := .real,
              unit := some "Hz", ch := none, get_cmd := "FREQ?",
              set_cmd := "FREQ %(value)e%(unit)s", options := [] })] }
        "Power" (.int 0)
      = (.ok (),
        { ins := none,
          quantities := [("Frequency",
            { name := "Frequency", value := .none, type := .real,
              unit := some "Hz", ch := none, get_cmd := "FREQ?",
              set_cmd := "FREQ %(value)e%(unit)s", options := [] })] }, []) :=
  C9_unknown_name _ "Power" (.int 0) false rfl

theorem dictLookup_none (ps : List (String × String)) (k : String)
    (h : ∀ p ∈ ps, p.1 ≠ k) : dictLookup ps k = none := by
  induction ps with
  | nil => rfl
  | cons p rest ih =>
      obtain ⟨a, b⟩ := p
      have h1 : a ≠ k := h (a, b) (by simp)
      rw [dictLookup, ih (fun p hp => h p (List.mem_cons_of_mem _ hp))]
      simp [h1]

theorem optionIndexLoop_none (v : PyVal) (ps : List (String × String))
    (h : ∀ p ∈ ps, pyEqStr v p.1 = false) :
    ∀ i, optionIndexLoop v i ps = none := by
  induction ps with
  | nil => intro i; rfl
  | cons p rest ih =>
      intro i
      rw [optionIndexLoop, h p (by simp)]
      simp only [if_false, Bool.false_eq_true, if_neg]
      exact ih (fun p hp => h p (List.mem_cons_of_mem _ hp)) (i + 1)

theorem QString.getValue_no_cmd (drv : Option (Option Transport))
    (q : Quantity) (h : q.get_cmd = "") :
    QString.getValue drv q = (.ok q.value, q) := by
  rcases drv with _ | ins
  · rfl
  · simp [QString.getValue, h]

/-- C10: for an Option quantity with no get command whose cached value is
a string that is not a registered label, getCmdOption raises KeyError
(`dict(self.options)[value]`) while getIndex in the same state returns the
absent outcome None — the two accessors treat an unregistered current
value asymmetrically. -/
theorem C10_option_asymmetry (drv : Option (Option Transport)) (q : Quantity)
    (s : String) (hg : q.get_cmd = "") (hv : q.value = .str s)
    (hs : ∀ p ∈ q.options, p.1 ≠ s) :
    QOption.getCmdOption drv q = (.error .keyError, q)
    ∧ QOption.getIndex drv q = (.ok .none, q) := by
  have hget := QString.getValue_no_cmd drv q hg
  have hd : dictLookup q.options s = none := dictLookup_none _ _ hs
  have hidx : optionIndexLoop (.str s) 0 q.options = none :=
    optionIndexLoop_none _ _
      (fun p hp => by
        simp only [pyEqStr, beq_eq_false_iff_ne, ne_eq]
        exact fun hps => (hs p hp) hps.symm) 0
  constructor
  · rw [QOption.getCmdOption, hget, hv]
    simp [hd]
  · rw [QOption.getIndex, hget, hv]
    simp [hidx]

/-- C10 witness: a two-option quantity caching the unregistered label
"C". -/
theorem C10_option_asymmetry_witness :
    QOption.getCmdOption none
        { name := "o", value := .str "C", type := .option, unit := none,
          ch := none, get_cmd := "", set_cmd := "",
          options := [("A", "1"), ("B", "2")] }
      = (.error .keyError,
        { name := "o", value := .str "C", type := .option, unit := none,
          ch := none, get_cmd := "", set_cmd := "",
          options := [("A", "1"), ("B", "2")] })
    ∧ QOption.getIndex none
        { name := "o", value := .str "C", type := .option, unit := none,
          ch := none, get_cmd := "", set_cmd := "",
          options := [("A", "1"), ("B", "2")] }
      = (.ok .none,
        { name := "o", value := .str "C", type := .option, unit := none,
          ch := none, get_cmd := "", set_cmd := "",
          options := [("A", "1"), ("B", "2")] }) :=
  C10_option_asymmetry none _ "C" rfl rfl (by decide)

theorem packScalarLE_length (w : Nat) : ∀ x, (packScalarLE w x).length = w := by
  induction w with
  | zero => intro x; rfl
  | succ w ih => intro x; simp [packScalarLE, ih]

theorem packScalar_length (w : Nat) (big : Bool) (x : Nat) :
    (packScalar w big x).length = w := by
  cases big <;> simp [packScalar, packScalarLE_length]

theorem unpackScalarLE_packScalarLE (w : Nat) :
    ∀ x, x < 2 ^ (8 * w) → unpackScalarLE (packScalarLE w x) = x := by
  induction w with
  | zero =>
      intro x h
      simp only [Nat.mul_zero, pow_zero] at h
      simp [packScalarLE, unpackScalarLE]
      omega
  | succ w ih =>
      intro x h
      have hdiv : x / 256 < 2 ^ (8 * w) := by
        refine Nat.div_lt_of_lt_mul ?_
        have : (2:Nat) ^ (8 * (w + 1)) = 256 * 2 ^ (8 * w) := by
          rw [Nat.mul_succ, pow_add, Nat.mul_comm]
          norm_num
        omega
      simp only [packScalarLE, unpackScalarLE, ih _ hdiv]
      omega

theorem unpackScalar_packScalar (w : Nat) (big : Bool) (x : Nat)
    (h : x < 2 ^ (8 * w)) :
    unpackScalar w big (packScalar w big x) = x := by
  cases big <;>
    simp [unpackScalar, packScalar, List.reverse_reverse,
      unpackScalarLE_packScalarLE w x h]

theorem packAll_length (w : Nat) (big : Bool) (A : List Nat) :
    (packAll w big A).length = A.length * w := by
  induction A with
  | nil => simp [packAll]
  | cons x xs ih =>
      simp [packAll, List.length_append, packScalar_length, ih, Nat.succ_mul]
      omega

theorem take_length_append {α : Type} (l1 l2 : List α) :
    (l1 ++ l2).take l1.length = l1 := by
  induction l1 with
  | nil => rfl
  | cons a l ih => simp [ih]

theorem drop_length_append {α : Type} (l1 l2 : List α) :
    (l1 ++ l2).drop l1.length = l2 := by
  induction l1 with
  | nil => rfl
  | cons a l ih => simp [ih]

theorem parseDecBytes_natDecBytes (n : Nat) :
    parseDecBytes (natDecBytes n) = some n := by
  by_cases h0 : n = 0
  · subst h0
    decide
  · rw [natDecBytes, if_neg h0, parseDecBytes]
    have hall : (((Nat.digits 10 n).map (· + 48)).reverse).all
        (fun b => Nat.ble 48 b && Nat.ble b 57) = true := by
      rw [List.all_eq_true]
      intro b hb
      rw [List.mem_reverse] at hb
      obtain ⟨d, hd, rfl⟩ := List.mem_map.1 hb
      have hlt : d < 10 := Nat.digits_lt_base (by norm_num) hd
      simp only [Bool.and_eq_true, Nat.ble_eq]
      omega
    rw [if_pos hall]
    have hmm : ((((Nat.digits 10 n).map (· + 48)).reverse.map (· - 48)).reverse)
        = Nat.digits 10 n := by
      rw [List.map_reverse, List.reverse_reverse, List.map_map]
      have hcomp : ∀ l : List Nat,
          l.map ((fun b => b - 48) ∘ (fun d => d + 48)) = l := by
        intro l
        induction l with
        | nil => rfl
        | cons a t iht => simp [iht]
      exact hcomp _
    rw [hmm, Nat.ofDigits_digits]

theorem natDecBytes_len_le (n : Nat) (h : n < 10 ^ 9) :
    (natDecBytes n).length ≤ 9 := by
  by_cases h0 : n = 0
  · subst h0
    decide
  · rw [natDecBytes, if_neg h0]
    simp only [List.length_reverse, List.length_map]
    rw [Nat.digits_len 10 n (by norm_num) h0]
    have := Nat.log_lt_of_lt_pow h0 h
    omega

theorem unpackCount_packAll (w : Nat) (big : Bool) (hw : 0 < w) :
    ∀ A : List Nat, (∀ x ∈ A, x < 2 ^ (8 * w)) →
      unpackCount w big A.length (packAll w big A) = some A := by
  intro A
  induction A with
  | nil => intro _; rfl
  | cons x xs ih =>
      intro hA
      have hx := hA x (by simp)
      have hrest : ∀ y ∈ xs, y < 2 ^ (8 * w) :=
        fun y hy => hA y (List.mem_cons_of_mem _ hy)
      show unpackCount w big (xs.length + 1)
          (packScalar w big x ++ packAll w big xs) = some (x :: xs)
      rw [unpackCount]
      have hlen : ¬ (packScalar w big x ++ packAll w big xs).length < w := by
        simp [List.length_append, packScalar_length]
      rw [if_neg hlen]
      have ht := take_length_append (packScalar w big x) (packAll w big xs)
      rw [packScalar_length] at ht
      have hd := drop_length_append (packScalar w big x) (packAll w big xs)
      rw [packScalar_length] at hd
      rw [ht, hd, ih hrest, unpackScalar_packScalar w big x hx]

theorem codec_roundtrip (w : Nat) (big : Bool) (A junk : List Nat)
    (hw : 0 < w) (hA : ∀ x ∈ A, x < 2 ^ (8 * w))
    (hlen : A.length * w < 10 ^ 9) :
    (IEEE_488_2_BinBlock w big A).bind
      (fun s => decodeBlock w big (s ++ junk)) = some A := by
  have hplen : (packAll w big A).length = A.length * w := packAll_length w big A
  have hd9 : (natDecBytes (packAll w big A).length).length ≤ 9 := by
    rw [hplen]
    exact natDecBytes_len_le _ hlen
  rw [IEEE_488_2_BinBlock]
  simp only [hd9, if_pos]
  rw [Option.some_bind]
  rw [List.cons_append, List.cons_append, List.append_assoc, decodeBlock]
  simp only [if_pos rfl]
  have hdsub : (natDecBytes (packAll w big A).length).length + 48 - 48
      = (natDecBytes (packAll w big A).length).length := by omega
  rw [hdsub]
  have hrlen : ¬ ((natDecBytes (packAll w big A).length)
        ++ (packAll w big A ++ junk)).length
      < (natDecBytes (packAll w big A).length).length := by
    simp [List.length_append]
  rw [if_neg hrlen]
  rw [take_length_append, parseDecBytes_natDecBytes,
    drop_length_append]
  simp only [if_true]
  have halen : ¬ (packAll w big A ++ junk).length < (packAll w big A).length := by
    simp [List.length_append]
  rw [if_neg halen]
  rw [if_neg (Nat.pos_iff_ne_zero.1 hw)]
  have hmod : (packAll w big A).length % w = 0 := by
    rw [hplen]
    exact Nat.mul_mod_left A.length w
  rw [if_pos hmod]
  have hquot : (packAll w big A).length / w = A.length := by
    rw [hplen]
    exact Nat.mul_div_cancel A.length hw
  rw [take_length_append, hquot, unpackCount_packAll w big hw A hA]

/-- C1: binary block codec round trip — for every numeric array, every
supported scalar datatype and either byte order, decoding the IEEE-488.2
definite-length block produced by encoding the array yields the array
again, even with arbitrary trailing bytes after the block: header parsing
depends only on the hash/digit-count/length prefix and consumes exactly
the declared payload, never scanning for a terminator inside it. -/
theorem C1_binblock_roundtrip (dt : BinDatatype) (big : Bool)
    (A junk : List Nat)
    (hA : ∀ x ∈ A, x < 2 ^ (8 * dt.width))
    (hlen : A.length * dt.width < 10 ^ 9) :
    (IEEE_488_2_BinBlock dt.width big A).bind
      (fun s => decodeBlock dt.width big (s ++ junk)) = some A :=
  codec_roundtrip dt.width big A junk (by cases dt <;> decide) hA hlen

/-- C1 witness: three 16-bit big-endian scalars, with trailing
newline/carriage-return bytes after the block. -/
theorem C1_binblock_roundtrip_witness :
    (IEEE_488_2_BinBlock BinDatatype.int16.width true [1, 500, 65535]).bind
      (fun s => decodeBlock BinDatatype.int16.width true (s ++ [10, 13]))
      = some [1, 500, 65535] :=
  C1_binblock_roundtrip BinDatatype.int16 true [1, 500, 65535] [10, 13]
    (by decide) (by decide)
